import Mathlib

/-!
Shallow embedding of the rolling-form feature engine of the
premier-league-xg repository.

Numeric values are modelled with `Rat` (exact rationals standing for the
Python floats); the formulas, guards and control flow are translated
directly from `src/build_all_features.py` (batch path, namespace `Batch`)
and `src/predict_upcoming.py` (live-inference path, namespace `Pred`).
-/

attribute [local semireducible] Rat.add Rat.mul Rat.inv Rat.sub

/-- Match result as stored in the `result` column: 'H', 'D' or 'A'. -/
inductive MatchResult
  | H | D | A
  deriving DecidableEq, Repr

namespace Batch

/-- One row of the enriched historical dataframe consumed by
`build_all_features.py` (all statistics present after enrichment). -/
structure Match where
  fixture_id : Nat
  date : Int
  season : Nat
  home_team : String
  away_team : String
  home_team_id : Nat
  away_team_id : Nat
  home_goals : Rat
  away_goals : Rat
  result : MatchResult
  home_shots : Rat
  away_shots : Rat
  home_shots_on_target : Rat
  away_shots_on_target : Rat
  home_possession : Rat
  away_possession : Rat
  home_corners : Rat
  away_corners : Rat
  deriving DecidableEq, Repr

/-- The team-filter step of `calculate_team_form` (`as_home`:
`None` / `True` / `False`). -/
def teamMatches (df : List Match) (team_id : Nat) (as_home : Option Bool) : List Match :=
  match as_home with
  | none => df.filter (fun m => decide (m.home_team_id = team_id) || decide (m.away_team_id = team_id))
  | some true => df.filter (fun m => decide (m.home_team_id = team_id))
  | some false => df.filter (fun m => decide (m.away_team_id = team_id))

/-- `sort_values('date')` (a stable sort on the date column). -/
def sortByDate (l : List Match) : List Match :=
  l.insertionSort (fun a b => a.date ≤ b.date)

/-- `tail(n_games)` after filtering and sorting: the trailing `n_games`
entries of the date-sorted list of the team's matches. -/
def recentMatches (df : List Match) (team_id : Nat) (n_games : Nat) (as_home : Option Bool) : List Match :=
  let tm := sortByDate (teamMatches df team_id as_home)
  tm.drop (tm.length - n_games)

/-- Goals scored by `team_id` in match `m` (the `is_home` branch). -/
def goalsForOf (m : Match) (team_id : Nat) : Rat :=
  if m.home_team_id = team_id then m.home_goals else m.away_goals

/-- Goals conceded by `team_id` in match `m`. -/
def goalsAgainstOf (m : Match) (team_id : Nat) : Rat :=
  if m.home_team_id = team_id then m.away_goals else m.home_goals

/-- Shots taken by `team_id` in match `m`. -/
def shotsForOf (m : Match) (team_id : Nat) : Rat :=
  if m.home_team_id = team_id then m.home_shots else m.away_shots

/-- Shots faced by `team_id` in match `m`. -/
def shotsAgainstOf (m : Match) (team_id : Nat) : Rat :=
  if m.home_team_id = team_id then m.away_shots else m.home_shots

/-- Shots on target by `team_id` in match `m`. -/
def sotForOf (m : Match) (team_id : Nat) : Rat :=
  if m.home_team_id = team_id then m.home_shots_on_target else m.away_shots_on_target

/-- Shots on target faced by `team_id` in match `m`. -/
def sotAgainstOf (m : Match) (team_id : Nat) : Rat :=
  if m.home_team_id = team_id then m.away_shots_on_target else m.home_shots_on_target

/-- Possession of `team_id` in match `m`. -/
def possessionOf (m : Match) (team_id : Nat) : Rat :=
  if m.home_team_id = team_id then m.home_possession else m.away_possession

/-- Corners won by `team_id` in match `m`. -/
def cornersForOf (m : Match) (team_id : Nat) : Rat :=
  if m.home_team_id = team_id then m.home_corners else m.away_corners

/-- Corners conceded by `team_id` in match `m`. -/
def cornersAgainstOf (m : Match) (team_id : Nat) : Rat :=
  if m.home_team_id = team_id then m.away_corners else m.home_corners

/-- Win from `team_id`'s perspective: 'H' when home, 'A' when away. -/
def isWinFor (m : Match) (team_id : Nat) : Bool :=
  if m.home_team_id = team_id then decide (m.result = MatchResult.H)
  else decide (m.result = MatchResult.A)

/-- Draw from either perspective: `result == 'D'`. -/
def isDrawFor (m : Match) : Bool :=
  decide (m.result = MatchResult.D)

/-- The `else` branch of the win/draw classification. -/
def isLossFor (m : Match) (team_id : Nat) : Bool :=
  !(isWinFor m team_id) && !(isDrawFor m)

/-- `np.mean` over a list of rationals. -/
def mean (l : List Rat) : Rat := l.sum / (l.length : Rat)

/-- The dict returned by `calculate_team_form`. -/
structure TeamForm where
  games_played : Nat
  wins : Nat
  draws : Nat
  losses : Nat
  win_pct : Rat
  avg_goals_for : Rat
  avg_goals_against : Rat
  avg_shots_for : Rat
  avg_shots_against : Rat
  avg_shots_on_target_for : Rat
  avg_possession : Rat
  avg_corners_for : Rat
  goal_difference : Rat
  shot_accuracy : Rat
  conversion_rate : Rat
  defensive_efficiency : Rat
  points : Nat
  deriving DecidableEq, Repr

/-- `calculate_team_form(df, team_id, n_games, as_home)` from
`build_all_features.py`: rolling form over the last `n_games` of the
team's matches in `df`; `None` exactly when no match survives the
filter/tail steps. -/
def calculate_team_form (df : List Match) (team_id : Nat) (n_games : Nat) (as_home : Option Bool) : Option TeamForm :=
  let recent := recentMatches df team_id n_games as_home
  if recent.length = 0 then none
  else
    let goals_for := recent.map (fun m => goalsForOf m team_id)
    let goals_against := recent.map (fun m => goalsAgainstOf m team_id)
    let shots_for := recent.map (fun m => shotsForOf m team_id)
    let shots_against := recent.map (fun m => shotsAgainstOf m team_id)
    let shots_on_target_for := recent.map (fun m => sotForOf m team_id)
    let possession := recent.map (fun m => possessionOf m team_id)
    let corners_for := recent.map (fun m => cornersForOf m team_id)
    let wins := recent.countP (fun m => isWinFor m team_id)
    let draws := recent.countP (fun m => isDrawFor m)
    let losses := recent.countP (fun m => isLossFor m team_id)
    let total_shots := shots_for.sum
    let total_shots_on_target := shots_on_target_for.sum
    let total_goals := goals_for.sum
    let shot_accuracy := if total_shots > 0 then total_shots_on_target / total_shots * 100 else 0
    let conversion_rate := if total_shots_on_target > 0 then total_goals / total_shots_on_target * 100 else 0
    let shots_against_total := shots_against.sum
    let defensive_efficiency := if shots_against_total > 0 then goals_against.sum / shots_against_total else 0
    some {
      games_played := recent.length
      wins := wins
      draws := draws
      losses := losses
      win_pct := (wins : Rat) / (recent.length : Rat)
      avg_goals_for := mean goals_for
      avg_goals_against := mean goals_against
      avg_shots_for := mean shots_for
      avg_shots_against := mean shots_against
      avg_shots_on_target_for := mean shots_on_target_for
      avg_possession := mean possession
      avg_corners_for := mean corners_for
      goal_difference := goals_for.sum - goals_against.sum
      shot_accuracy := shot_accuracy
      conversion_rate := conversion_rate
      defensive_efficiency := defensive_efficiency
      points := wins * 3 + draws
    }

/-- The feature dict built per fixture by `build_complete_features`
(6 metadata fields followed by the 36 numeric features, in the order the
dict literal inserts them). -/
structure FeatureRow where
  fixture_id : Nat
  date : Int
  season : Nat
  home_team : String
  away_team : String
  result : MatchResult
  home_win_pct_l5 : Rat
  home_avg_goals_for_l5 : Rat
  home_avg_goals_against_l5 : Rat
  home_avg_shots_for_l5 : Rat
  home_avg_possession_l5 : Rat
  home_win_pct_home_l5 : Rat
  home_avg_goals_for_home_l5 : Rat
  away_win_pct_l5 : Rat
  away_avg_goals_for_l5 : Rat
  away_avg_goals_against_l5 : Rat
  away_avg_shots_for_l5 : Rat
  away_avg_possession_l5 : Rat
  away_win_pct_away_l5 : Rat
  away_avg_goals_for_away_l5 : Rat
  home_shot_accuracy : Rat
  away_shot_accuracy : Rat
  shot_accuracy_diff : Rat
  home_conversion_rate : Rat
  away_conversion_rate : Rat
  conversion_diff : Rat
  home_defensive_efficiency : Rat
  away_defensive_efficiency : Rat
  defensive_diff : Rat
  home_poss_efficiency : Rat
  away_poss_efficiency : Rat
  poss_efficiency_diff : Rat
  home_corner_effectiveness : Rat
  away_corner_effectiveness : Rat
  form_diff : Rat
  goal_diff_comparison : Rat
  points_diff : Rat
  home_advantage : Rat
  home_attack_vs_away_defense : Rat
  away_attack_vs_home_defense : Rat
  home_recent_points : Rat
  away_recent_points : Rat

/-- Stages 2 and 3 plus the dict literal of `build_complete_features`,
given the four computed snapshots. -/
def mkRow (fx : Match) (home_form home_form_home away_form away_form_away : TeamForm) : FeatureRow :=
  let shot_accuracy_diff := home_form.shot_accuracy - away_form.shot_accuracy
  let conversion_diff := home_form.conversion_rate - away_form.conversion_rate
  let defensive_diff := away_form.defensive_efficiency - home_form.defensive_efficiency
  let home_poss_efficiency := if home_form.avg_possession > 0 then home_form.avg_goals_for / home_form.avg_possession else 0
  let away_poss_efficiency := if away_form.avg_possession > 0 then away_form.avg_goals_for / away_form.avg_possession else 0
  let poss_efficiency_diff := home_poss_efficiency - away_poss_efficiency
  let home_corner_effectiveness := if home_form.avg_corners_for > 0 then home_form.avg_goals_for / home_form.avg_corners_for else 0
  let away_corner_effectiveness := if away_form.avg_corners_for > 0 then away_form.avg_goals_for / away_form.avg_corners_for else 0
  let form_diff := home_form.win_pct - away_form.win_pct
  let goal_diff_comparison := home_form.goal_difference - away_form.goal_difference
  let points_diff := (home_form.points : Rat) - (away_form.points : Rat)
  let home_advantage := home_form_home.win_pct - away_form_away.win_pct
  let home_attack_vs_away_defense := home_form.avg_goals_for - away_form.avg_goals_against
  let away_attack_vs_home_defense := away_form.avg_goals_for - home_form.avg_goals_against
  { fixture_id := fx.fixture_id
    date := fx.date
    season := fx.season
    home_team := fx.home_team
    away_team := fx.away_team
    result := fx.result
    home_win_pct_l5 := home_form.win_pct
    home_avg_goals_for_l5 := home_form.avg_goals_for
    home_avg_goals_against_l5 := home_form.avg_goals_against
    home_avg_shots_for_l5 := home_form.avg_shots_for
    home_avg_possession_l5 := home_form.avg_possession
    home_win_pct_home_l5 := home_form_home.win_pct
    home_avg_goals_for_home_l5 := home_form_home.avg_goals_for
    away_win_pct_l5 := away_form.win_pct
    away_avg_goals_for_l5 := away_form.avg_goals_for
    away_avg_goals_against_l5 := away_form.avg_goals_against
    away_avg_shots_for_l5 := away_form.avg_shots_for
    away_avg_possession_l5 := away_form.avg_possession
    away_win_pct_away_l5 := away_form_away.win_pct
    away_avg_goals_for_away_l5 := away_form_away.avg_goals_for
    home_shot_accuracy := home_form.shot_accuracy
    away_shot_accuracy := away_form.shot_accuracy
    shot_accuracy_diff := shot_accuracy_diff
    home_conversion_rate := home_form.conversion_rate
    away_conversion_rate := away_form.conversion_rate
    conversion_diff := conversion_diff
    home_defensive_efficiency := home_form.defensive_efficiency
    away_defensive_efficiency := away_form.defensive_efficiency
    defensive_diff := defensive_diff
    home_poss_efficiency := home_poss_efficiency
    away_poss_efficiency := away_poss_efficiency
    poss_efficiency_diff := poss_efficiency_diff
    home_corner_effectiveness := home_corner_effectiveness
    away_corner_effectiveness := away_corner_effectiveness
    form_diff := form_diff
    goal_diff_comparison := goal_diff_comparison
    points_diff := points_diff
    home_advantage := home_advantage
    home_attack_vs_away_defense := home_attack_vs_away_defense
    away_attack_vs_home_defense := away_attack_vs_home_defense
    home_recent_points := (home_form.points : Rat)
    away_recent_points := (away_form.points : Rat) }

/-- One iteration of the `build_complete_features` loop: take matches
strictly before the fixture's date, require at least 10 of them in the
whole dataset, compute the four snapshots, skip if any is `None`. -/
def featureRowFor (all : List Match) (fx : Match) : Option FeatureRow :=
  let prior_matches := all.filter (fun m => decide (m.date < fx.date))
  if prior_matches.length < 10 then none
  else
    match calculate_team_form prior_matches fx.home_team_id 5 none,
          calculate_team_form prior_matches fx.home_team_id 5 (some true),
          calculate_team_form prior_matches fx.away_team_id 5 none,
          calculate_team_form prior_matches fx.away_team_id 5 (some false) with
    | some home_form, some home_form_home, some away_form, some away_form_away =>
        some (mkRow fx home_form home_form_home away_form away_form_away)
    | _, _, _, _ => none

/-- `build_complete_features`: sort chronologically, run the loop. -/
def build_complete_features (fixtures_df : List Match) : List FeatureRow :=
  let sorted := sortByDate fixtures_df
  sorted.filterMap (featureRowFor sorted)

/-- The keys of the per-fixture feature dict, in insertion order. -/
def batchRowKeys : List String :=
  ["fixture_id", "date", "season", "home_team", "away_team", "result",
   "home_win_pct_l5", "home_avg_goals_for_l5", "home_avg_goals_against_l5",
   "home_avg_shots_for_l5", "home_avg_possession_l5", "home_win_pct_home_l5",
   "home_avg_goals_for_home_l5", "away_win_pct_l5", "away_avg_goals_for_l5",
   "away_avg_goals_against_l5", "away_avg_shots_for_l5", "away_avg_possession_l5",
   "away_win_pct_away_l5", "away_avg_goals_for_away_l5", "home_shot_accuracy",
   "away_shot_accuracy", "shot_accuracy_diff", "home_conversion_rate",
   "away_conversion_rate", "conversion_diff", "home_defensive_efficiency",
   "away_defensive_efficiency", "defensive_diff", "home_poss_efficiency",
   "away_poss_efficiency", "poss_efficiency_diff", "home_corner_effectiveness",
   "away_corner_effectiveness", "form_diff", "goal_diff_comparison",
   "points_diff", "home_advantage", "home_attack_vs_away_defense",
   "away_attack_vs_home_defense", "home_recent_points", "away_recent_points"]

/-- The metadata columns excluded by `train_model.prepare_data`. -/
def metadata_cols : List String :=
  ["fixture_id", "date", "season", "home_team", "away_team", "result"]

/-- `feature_cols` of `train_model.prepare_data`: every column of the
batch feature row that is not metadata, in dataframe order. -/
def feature_cols : List String :=
  batchRowKeys.filter (fun c => !(metadata_cols.contains c))

end Batch

namespace Pred

/-- One joined row of `fixtures LEFT JOIN match_statistics` as read by
`calculate_team_features`; statistics (and, defensively, goals/result)
may be SQL NULL. -/
structure DBMatch where
  fixture_id : Nat
  date : Int
  home_team_id : Nat
  away_team_id : Nat
  home_goals : Option Rat
  away_goals : Option Rat
  result : Option MatchResult
  home_shots : Option Rat
  away_shots : Option Rat
  home_shots_on_target : Option Rat
  away_shots_on_target : Option Rat
  home_possession : Option Rat
  away_possession : Option Rat
  home_corners : Option Rat
  away_corners : Option Rat
  deriving DecidableEq, Repr

/-- Python's two-argument `max` (the larger value; the first on ties). -/
def pymax (a b : Rat) : Rat := if b ≤ a then a else b

/-- Python's `x or d` applied to a nullable column: `d` when the value
is NULL and also when it is 0 (0 is falsy in Python). -/
def pyOr (x : Option Rat) (d : Rat) : Rat :=
  match x with
  | none => d
  | some v => if v = 0 then d else v

/-- The overall-history query: matches of the team with a result,
strictly before today, most recent first, `LIMIT lookback`. -/
def overallMatches (db : List DBMatch) (team_id : Nat) (today : Int) (lookback : Nat) : List DBMatch :=
  ((db.filter (fun m =>
      (decide (m.home_team_id = team_id) || decide (m.away_team_id = team_id))
      && m.result.isSome && decide (m.date < today))).insertionSort
    (fun a b => b.date ≤ a.date)).take lookback

/-- The venue-history query: home matches of the team when `is_home`,
away matches otherwise, with a result, strictly before today, most
recent first, `LIMIT lookback`. -/
def venueMatches (db : List DBMatch) (team_id : Nat) (is_home : Bool) (today : Int) (lookback : Nat) : List DBMatch :=
  ((db.filter (fun m =>
      (if is_home then decide (m.home_team_id = team_id) else decide (m.away_team_id = team_id))
      && m.result.isSome && decide (m.date < today))).insertionSort
    (fun a b => b.date ≤ a.date)).take lookback

/-- Goals for the team with the `or 0` coercion. -/
def dbGoalsFor (m : DBMatch) (team_id : Nat) : Rat :=
  if m.home_team_id = team_id then pyOr m.home_goals 0 else pyOr m.away_goals 0

/-- Goals against the team with the `or 0` coercion. -/
def dbGoalsAgainst (m : DBMatch) (team_id : Nat) : Rat :=
  if m.home_team_id = team_id then pyOr m.away_goals 0 else pyOr m.home_goals 0

/-- Shots for the team with the `or 0` coercion. -/
def dbShotsFor (m : DBMatch) (team_id : Nat) : Rat :=
  if m.home_team_id = team_id then pyOr m.home_shots 0 else pyOr m.away_shots 0

/-- Shots on target for the team with the `or 0` coercion. -/
def dbSotFor (m : DBMatch) (team_id : Nat) : Rat :=
  if m.home_team_id = team_id then pyOr m.home_shots_on_target 0 else pyOr m.away_shots_on_target 0

/-- Possession for the team with the `or 50` coercion. -/
def dbPossession (m : DBMatch) (team_id : Nat) : Rat :=
  if m.home_team_id = team_id then pyOr m.home_possession 50 else pyOr m.away_possession 50

/-- Corners for the team with the `or 0` coercion. -/
def dbCorners (m : DBMatch) (team_id : Nat) : Rat :=
  if m.home_team_id = team_id then pyOr m.home_corners 0 else pyOr m.away_corners 0

/-- Win from the team's perspective on the inference path. -/
def dbIsWin (m : DBMatch) (team_id : Nat) : Bool :=
  if m.home_team_id = team_id then decide (m.result = some MatchResult.H)
  else decide (m.result = some MatchResult.A)

/-- Draw on the inference path. -/
def dbIsDraw (m : DBMatch) : Bool :=
  decide (m.result = some MatchResult.D)

/-- Venue win: `result == 'H'` when `is_home`, `result == 'A'` otherwise. -/
def dbVenueWin (m : DBMatch) (is_home : Bool) : Bool :=
  if is_home then decide (m.result = some MatchResult.H)
  else decide (m.result = some MatchResult.A)

/-- The dict returned by `calculate_team_features`. -/
structure PredFeatures where
  win_pct_l5 : Rat
  avg_goals_for_l5 : Rat
  avg_goals_against_l5 : Rat
  avg_shots_for_l5 : Rat
  avg_possession_l5 : Rat
  win_pct_venue_l5 : Rat
  avg_goals_for_venue_l5 : Rat
  shot_accuracy : Rat
  conversion_rate : Rat
  defensive_efficiency : Rat
  poss_efficiency : Rat
  corner_effectiveness : Rat
  recent_points : Nat
  deriving DecidableEq, Repr

/-- `calculate_team_features(team_id, is_home, lookback)` from
`predict_upcoming.py`, with the database and the current date made
explicit parameters; `None` exactly when fewer than `lookback` overall
matches exist. -/
def calculate_team_features (db : List DBMatch) (team_id : Nat) (is_home : Bool) (today : Int) (lookback : Nat) : Option PredFeatures :=
  let overall := overallMatches db team_id today lookback
  let venue := venueMatches db team_id is_home today lookback
  if overall.length < lookback then none
  else
    let goals_for := overall.map (fun m => dbGoalsFor m team_id)
    let goals_against := overall.map (fun m => dbGoalsAgainst m team_id)
    let shots_for := overall.map (fun m => dbShotsFor m team_id)
    let shots_on_target := overall.map (fun m => dbSotFor m team_id)
    let possession := overall.map (fun m => dbPossession m team_id)
    let corners := overall.map (fun m => dbCorners m team_id)
    let wins := overall.countP (fun m => dbIsWin m team_id)
    let draws := overall.countP (fun m => dbIsDraw m)
    let points := 3 * wins + draws
    let venue_goals := if 3 ≤ venue.length then venue.map (fun m => dbGoalsFor m team_id) else []
    let venue_wins := if 3 ≤ venue.length then venue.countP (fun m => dbVenueWin m is_home) else 0
    let avg_goals_for := Batch.mean goals_for
    let avg_goals_against := Batch.mean goals_against
    let avg_shots := Batch.mean shots_for
    let avg_possession := Batch.mean possession
    let total_shots := shots_for.sum
    let total_sot := shots_on_target.sum
    let shot_accuracy := if total_shots > 0 then total_sot / total_shots * 100 else 0
    let total_goals := goals_for.sum
    let conversion_rate := if total_shots > 0 then total_goals / total_shots * 100 else 0
    let defensive_efficiency := pymax 0 (100 - avg_goals_against / pymax avg_goals_for (1/10) * 100)
    let poss_efficiency := if avg_possession > 0 then avg_goals_for / pymax avg_possession 1 * 100 else 0
    let total_corners := corners.sum
    let corner_effectiveness := if total_corners > 0 then total_goals / total_corners * 100 else 0
    let win_pct := (wins : Rat) / (lookback : Rat)
    let avg_venue_goals := if venue_goals ≠ [] then Batch.mean venue_goals else avg_goals_for
    let venue_win_pct := if venue ≠ [] then (venue_wins : Rat) / (venue.length : Rat) else win_pct
    some {
      win_pct_l5 := win_pct
      avg_goals_for_l5 := avg_goals_for
      avg_goals_against_l5 := avg_goals_against
      avg_shots_for_l5 := avg_shots
      avg_possession_l5 := avg_possession
      win_pct_venue_l5 := venue_win_pct
      avg_goals_for_venue_l5 := avg_venue_goals
      shot_accuracy := shot_accuracy
      conversion_rate := conversion_rate
      defensive_efficiency := defensive_efficiency
      poss_efficiency := poss_efficiency
      corner_effectiveness := corner_effectiveness
      recent_points := points
    }

/-- An upcoming fixture row as returned by `get_upcoming_fixtures`. -/
structure Upcoming where
  fixture_id : Nat
  date : Int
  home_team : String
  away_team : String
  home_team_id : Nat
  away_team_id : Nat
  deriving DecidableEq, Repr

/-- The feature dict built per upcoming fixture by
`build_prediction_features` (exactly the 36 training feature columns). -/
structure PredRow where
  home_win_pct_l5 : Rat
  home_avg_goals_for_l5 : Rat
  home_avg_goals_against_l5 : Rat
  home_avg_shots_for_l5 : Rat
  home_avg_possession_l5 : Rat
  home_win_pct_home_l5 : Rat
  home_avg_goals_for_home_l5 : Rat
  away_win_pct_l5 : Rat
  away_avg_goals_for_l5 : Rat
  away_avg_goals_against_l5 : Rat
  away_avg_shots_for_l5 : Rat
  away_avg_possession_l5 : Rat
  away_win_pct_away_l5 : Rat
  away_avg_goals_for_away_l5 : Rat
  home_shot_accuracy : Rat
  away_shot_accuracy : Rat
  shot_accuracy_diff : Rat
  home_conversion_rate : Rat
  away_conversion_rate : Rat
  conversion_diff : Rat
  home_defensive_efficiency : Rat
  away_defensive_efficiency : Rat
  defensive_diff : Rat
  home_poss_efficiency : Rat
  away_poss_efficiency : Rat
  poss_efficiency_diff : Rat
  home_corner_effectiveness : Rat
  away_corner_effectiveness : Rat
  form_diff : Rat
  goal_diff_comparison : Rat
  points_diff : Rat
  home_advantage : Rat
  home_attack_vs_away_defense : Rat
  away_attack_vs_home_defense : Rat
  home_recent_points : Rat
  away_recent_points : Rat

/-- The feature dict literal of `build_prediction_features` for one
fixture, from the two teams' computed feature dicts. -/
def mkPredRow (home_features away_features : PredFeatures) : PredRow :=
  { home_win_pct_l5 := home_features.win_pct_l5
    home_avg_goals_for_l5 := home_features.avg_goals_for_l5
    home_avg_goals_against_l5 := home_features.avg_goals_against_l5
    home_avg_shots_for_l5 := home_features.avg_shots_for_l5
    home_avg_possession_l5 := home_features.avg_possession_l5
    home_win_pct_home_l5 := home_features.win_pct_venue_l5
    home_avg_goals_for_home_l5 := home_features.avg_goals_for_venue_l5
    away_win_pct_l5 := away_features.win_pct_l5
    away_avg_goals_for_l5 := away_features.avg_goals_for_l5
    away_avg_goals_against_l5 := away_features.avg_goals_against_l5
    away_avg_shots_for_l5 := away_features.avg_shots_for_l5
    away_avg_possession_l5 := away_features.avg_possession_l5
    away_win_pct_away_l5 := away_features.win_pct_venue_l5
    away_avg_goals_for_away_l5 := away_features.avg_goals_for_venue_l5
    home_shot_accuracy := home_features.shot_accuracy
    away_shot_accuracy := away_features.shot_accuracy
    shot_accuracy_diff := home_features.shot_accuracy - away_features.shot_accuracy
    home_conversion_rate := home_features.conversion_rate
    away_conversion_rate := away_features.conversion_rate
    conversion_diff := home_features.conversion_rate - away_features.conversion_rate
    home_defensive_efficiency := home_features.defensive_efficiency
    away_defensive_efficiency := away_features.defensive_efficiency
    defensive_diff := home_features.defensive_efficiency - away_features.defensive_efficiency
    home_poss_efficiency := home_features.poss_efficiency
    away_poss_efficiency := away_features.poss_efficiency
    poss_efficiency_diff := home_features.poss_efficiency - away_features.poss_efficiency
    home_corner_effectiveness := home_features.corner_effectiveness
    away_corner_effectiveness := away_features.corner_effectiveness
    form_diff := home_features.win_pct_l5 - away_features.win_pct_l5
    goal_diff_comparison := home_features.avg_goals_for_l5 - away_features.avg_goals_for_l5
    points_diff := (home_features.recent_points : Rat) - (away_features.recent_points : Rat)
    home_advantage := 1
    home_attack_vs_away_defense := home_features.avg_goals_for_l5 - away_features.avg_goals_against_l5
    away_attack_vs_home_defense := away_features.avg_goals_for_l5 - home_features.avg_goals_against_l5
    home_recent_points := (home_features.recent_points : Rat)
    away_recent_points := (away_features.recent_points : Rat) }

/-- One iteration of the `build_prediction_features` loop: both teams'
features, skip the fixture when either is `None`. -/
def predRowFor (db : List DBMatch) (today : Int) (fx : Upcoming) : Option PredRow :=
  match calculate_team_features db fx.home_team_id true today 5,
        calculate_team_features db fx.away_team_id false today 5 with
  | some home_features, some away_features => some (mkPredRow home_features away_features)
  | _, _ => none

/-- `build_prediction_features` over the upcoming fixtures. -/
def build_prediction_features (db : List DBMatch) (today : Int) (upcoming : List Upcoming) : List PredRow :=
  upcoming.filterMap (predRowFor db today)

/-- `expected_cols` of `build_prediction_features` (the training column
order the prediction frame is reindexed to). -/
def expected_cols : List String :=
  ["home_win_pct_l5", "home_avg_goals_for_l5", "home_avg_goals_against_l5",
   "home_avg_shots_for_l5", "home_avg_possession_l5", "home_win_pct_home_l5",
   "home_avg_goals_for_home_l5", "away_win_pct_l5", "away_avg_goals_for_l5",
   "away_avg_goals_against_l5", "away_avg_shots_for_l5", "away_avg_possession_l5",
   "away_win_pct_away_l5", "away_avg_goals_for_away_l5", "home_shot_accuracy",
   "away_shot_accuracy", "shot_accuracy_diff", "home_conversion_rate",
   "away_conversion_rate", "conversion_diff", "home_defensive_efficiency",
   "away_defensive_efficiency", "defensive_diff", "home_poss_efficiency",
   "away_poss_efficiency", "poss_efficiency_diff", "home_corner_effectiveness",
   "away_corner_effectiveness", "form_diff", "goal_diff_comparison",
   "points_diff", "home_advantage", "home_attack_vs_away_defense",
   "away_attack_vs_home_defense", "home_recent_points", "away_recent_points"]

/-- Wrap batch-path match data as database rows (every column present):
the bridge used to feed identical match collections to both paths. -/
def dbOfMatch (m : Batch.Match) : DBMatch :=
  { fixture_id := m.fixture_id, date := m.date, home_team_id := m.home_team_id,
    away_team_id := m.away_team_id, home_goals := some m.home_goals,
    away_goals := some m.away_goals, result := some m.result,
    home_shots := some m.home_shots, away_shots := some m.away_shots,
    home_shots_on_target := some m.home_shots_on_target,
    away_shots_on_target := some m.away_shots_on_target,
    home_possession := some m.home_possession, away_possession := some m.away_possession,
    home_corners := some m.home_corners, away_corners := some m.away_corners }

/-- Confidence labels produced by `generate_predictions`. -/
inductive Confidence
  | Low | Medium | High
  deriving DecidableEq, Repr

/-- `pd.cut(x, bins=[0, 50, 60, 100], labels=['Low','Medium','High'])`
for one value: left-open, right-closed intervals; values outside
(0, 100] get no label (NaN). -/
def pdCutConfidence (x : Rat) : Option Confidence :=
  if 0 < x ∧ x ≤ 50 then some Confidence.Low
  else if 50 < x ∧ x ≤ 60 then some Confidence.Medium
  else if 60 < x ∧ x ≤ 100 then some Confidence.High
  else none

/-- The confidence bucket assigned by `generate_predictions` from the
three class probabilities: `pd.cut` applied to
`probabilities.max(axis=1) * 100`. -/
def confidenceOf (pH pD pA : Rat) : Option Confidence :=
  pdCutConfidence (pymax pH (pymax pD pA) * 100)

end Pred

/-- Convenience constructor for concrete batch-path match rows. -/
def mkExM (fid : Nat) (d : Int) (hid aid : Nat) (r : MatchResult)
    (hg ag hsh ash hst ast hp pp hc cc : Rat) : Batch.Match :=
  { fixture_id := fid, date := d, season := 2024, home_team := "x", away_team := "y",
    home_team_id := hid, away_team_id := aid, home_goals := hg, away_goals := ag, result := r,
    home_shots := hsh, away_shots := ash, home_shots_on_target := hst, away_shots_on_target := ast,
    home_possession := hp, away_possession := pp, home_corners := hc, away_corners := cc }

/-- Team 1 with exactly 3 prior matches (two home wins, one home loss). -/
def exC1 : List Batch.Match :=
  [mkExM 1 1 1 9 MatchResult.H 2 0 4 1 2 1 50 50 3 3,
   mkExM 2 2 1 9 MatchResult.H 2 0 4 1 2 1 50 50 3 3,
   mkExM 3 3 1 9 MatchResult.A 2 3 4 1 2 1 50 50 3 3]

/-- Five identical home wins for team 1: 1-0, 4 shots, 2 on target. -/
def exC2 : List Batch.Match :=
  [mkExM 1 1 1 9 MatchResult.H 1 0 4 1 2 1 50 50 3 3,
   mkExM 2 2 1 9 MatchResult.H 1 0 4 1 2 1 50 50 3 3,
   mkExM 3 3 1 9 MatchResult.H 1 0 4 1 2 1 50 50 3 3,
   mkExM 4 4 1 9 MatchResult.H 1 0 4 1 2 1 50 50 3 3,
   mkExM 5 5 1 9 MatchResult.H 1 0 4 1 2 1 50 50 3 3]

/-- Team 1 with exactly 3 prior matches: two wins and one loss. -/
def exC4 : List Batch.Match :=
  [mkExM 1 1 1 9 MatchResult.H 2 0 4 1 2 1 50 50 3 3,
   mkExM 2 2 1 9 MatchResult.H 2 0 4 1 2 1 50 50 3 3,
   mkExM 3 3 1 9 MatchResult.A 2 3 4 1 2 1 50 50 3 3]

/-- Scenario with five home wins for team 1 (sufficient history). -/
def exC4w : List Batch.Match :=
  [mkExM 1 1 1 9 MatchResult.H 2 0 4 1 2 1 50 50 3 3,
   mkExM 2 2 1 9 MatchResult.H 2 0 4 1 2 1 50 50 3 3,
   mkExM 3 3 1 9 MatchResult.H 2 0 4 1 2 1 50 50 3 3,
   mkExM 4 4 1 9 MatchResult.H 2 0 4 1 2 1 50 50 3 3,
   mkExM 5 5 1 9 MatchResult.H 2 0 4 1 2 1 50 50 3 3]

/-- Database where team 1 played 5 matches, all away (no home-venue
history), and team 2 played 5 matches, all home (no away-venue
history); every match has a result and full statistics. -/
def exC5 : List Pred.DBMatch :=
  (([mkExM 1 1 11 1 MatchResult.H 2 0 4 1 2 1 50 50 3 3,
     mkExM 2 2 12 1 MatchResult.H 2 0 4 1 2 1 50 50 3 3,
     mkExM 3 3 13 1 MatchResult.H 2 0 4 1 2 1 50 50 3 3,
     mkExM 4 4 14 1 MatchResult.H 2 0 4 1 2 1 50 50 3 3,
     mkExM 5 5 15 1 MatchResult.H 2 0 4 1 2 1 50 50 3 3,
     mkExM 6 1 2 21 MatchResult.A 0 2 4 1 2 1 50 50 3 3,
     mkExM 7 2 2 22 MatchResult.A 0 2 4 1 2 1 50 50 3 3,
     mkExM 8 3 2 23 MatchResult.A 0 2 4 1 2 1 50 50 3 3,
     mkExM 9 4 2 24 MatchResult.A 0 2 4 1 2 1 50 50 3 3,
     mkExM 10 5 2 25 MatchResult.A 0 2 4 1 2 1 50 50 3 3] : List Batch.Match).map Pred.dbOfMatch)

/-- Upcoming fixture team 1 (home) against team 2 (away). -/
def exFxC5 : Pred.Upcoming :=
  { fixture_id := 99, date := 100, home_team := "x", away_team := "y",
    home_team_id := 1, away_team_id := 2 }

/-- Same database as `exC5`, kept separately for the home-advantage
claim: team 1 never won away, team 2 never won at home. -/
def exC7 : List Pred.DBMatch :=
  (([mkExM 1 1 11 1 MatchResult.H 2 0 4 1 2 1 50 50 3 3,
     mkExM 2 2 12 1 MatchResult.H 2 0 4 1 2 1 50 50 3 3,
     mkExM 3 3 13 1 MatchResult.H 2 0 4 1 2 1 50 50 3 3,
     mkExM 4 4 14 1 MatchResult.H 2 0 4 1 2 1 50 50 3 3,
     mkExM 5 5 15 1 MatchResult.H 2 0 4 1 2 1 50 50 3 3,
     mkExM 6 1 2 21 MatchResult.A 0 2 4 1 2 1 50 50 3 3,
     mkExM 7 2 2 22 MatchResult.A 0 2 4 1 2 1 50 50 3 3,
     mkExM 8 3 2 23 MatchResult.A 0 2 4 1 2 1 50 50 3 3,
     mkExM 9 4 2 24 MatchResult.A 0 2 4 1 2 1 50 50 3 3,
     mkExM 10 5 2 25 MatchResult.A 0 2 4 1 2 1 50 50 3 3] : List Batch.Match).map Pred.dbOfMatch)

/-- Upcoming fixture team 1 (home) against team 2 (away), for the
home-advantage claim. -/
def exFxC7 : Pred.Upcoming :=
  { fixture_id := 98, date := 100, home_team := "x", away_team := "y",
    home_team_id := 1, away_team_id := 2 }

/-- Five 0-0 draws of team 1 with every statistic equal to 0: the
opponents never took a shot. -/
def exC9 : List Pred.DBMatch :=
  (([mkExM 1 1 1 9 MatchResult.D 0 0 0 0 0 0 0 0 0 0,
     mkExM 2 2 1 9 MatchResult.D 0 0 0 0 0 0 0 0 0 0,
     mkExM 3 3 1 9 MatchResult.D 0 0 0 0 0 0 0 0 0 0,
     mkExM 4 4 1 9 MatchResult.D 0 0 0 0 0 0 0 0 0 0,
     mkExM 5 5 1 9 MatchResult.D 0 0 0 0 0 0 0 0 0 0] : List Batch.Match).map Pred.dbOfMatch)

/-- Ten matches before the fixture: team 1 always home against team 3,
team 2 always away against team 4. -/
def exC5all : List Batch.Match :=
  [mkExM 1 1 1 3 MatchResult.H 2 0 4 1 2 1 50 50 3 3,
   mkExM 2 2 1 3 MatchResult.H 2 0 4 1 2 1 50 50 3 3,
   mkExM 3 3 1 3 MatchResult.H 2 0 4 1 2 1 50 50 3 3,
   mkExM 4 4 1 3 MatchResult.H 2 0 4 1 2 1 50 50 3 3,
   mkExM 5 5 1 3 MatchResult.H 2 0 4 1 2 1 50 50 3 3,
   mkExM 6 6 4 2 MatchResult.A 0 2 4 1 2 1 50 50 3 3,
   mkExM 7 7 4 2 MatchResult.A 0 2 4 1 2 1 50 50 3 3,
   mkExM 8 8 4 2 MatchResult.A 0 2 4 1 2 1 50 50 3 3,
   mkExM 9 9 4 2 MatchResult.A 0 2 4 1 2 1 50 50 3 3,
   mkExM 10 10 4 2 MatchResult.A 0 2 4 1 2 1 50 50 3 3]

/-- The fixture following the ten matches of `exC5all`. -/
def exFxC5all : Batch.Match :=
  mkExM 11 20 1 2 MatchResult.H 0 0 0 0 0 0 50 50 0 0

/-- The snapshot `calculate_team_form` computes from `exC4w`
(the spec's Scenario A: five straight 2-0 wins). -/
def exC4wForm : Batch.TeamForm :=
  { games_played := 5, wins := 5, draws := 0, losses := 0, win_pct := 1,
    avg_goals_for := 2, avg_goals_against := 0, avg_shots_for := 4,
    avg_shots_against := 1, avg_shots_on_target_for := 2, avg_possession := 50,
    avg_corners_for := 3, goal_difference := 10, shot_accuracy := 50,
    conversion_rate := 100, defensive_efficiency := 0, points := 15 }

/-- The feature dict `calculate_team_features` computes from the same
five matches on the inference path. -/
def exC4wPred : Pred.PredFeatures :=
  { win_pct_l5 := 1, avg_goals_for_l5 := 2, avg_goals_against_l5 := 0,
    avg_shots_for_l5 := 4, avg_possession_l5 := 50, win_pct_venue_l5 := 1,
    avg_goals_for_venue_l5 := 2, shot_accuracy := 50, conversion_rate := 50,
    defensive_efficiency := 100, poss_efficiency := 4,
    corner_effectiveness := 200/3, recent_points := 15 }

/-- Three draws of team 1 with every batch-path statistic equal to 0. -/
def exC9b : List Batch.Match :=
  [mkExM 1 1 1 9 MatchResult.D 0 0 0 0 0 0 0 0 0 0,
   mkExM 2 2 1 9 MatchResult.D 0 0 0 0 0 0 0 0 0 0,
   mkExM 3 3 1 9 MatchResult.D 0 0 0 0 0 0 0 0 0 0]

/-- A fixture row used only to feed `mkRow` concretely. -/
def exC9fx : Batch.Match :=
  mkExM 99 9 1 2 MatchResult.D 0 0 0 0 0 0 0 0 0 0

/-- Five draws of team 1 whose possession samples (1, 1, 1, 1, -4)
average to zero after the `or 50` coercion leaves them unchanged. -/
def exC9p : List Pred.DBMatch :=
  (([mkExM 1 1 1 9 MatchResult.D 0 0 0 0 0 0 1 0 0 0,
     mkExM 2 2 1 9 MatchResult.D 0 0 0 0 0 0 1 0 0 0,
     mkExM 3 3 1 9 MatchResult.D 0 0 0 0 0 0 1 0 0 0,
     mkExM 4 4 1 9 MatchResult.D 0 0 0 0 0 0 1 0 0 0,
     mkExM 5 5 1 9 MatchResult.D 0 0 0 0 0 0 (-4) 0 0 0] : List Batch.Match).map Pred.dbOfMatch)

/-- Seven matches of team 1: six dated 1-6 and one dated 25, so a
cutoff of 20 admits exactly six. -/
def exC6df : List Batch.Match :=
  [mkExM 1 1 1 9 MatchResult.H 1 0 2 1 1 1 50 50 1 1,
   mkExM 2 2 1 9 MatchResult.H 1 0 2 1 1 1 50 50 1 1,
   mkExM 3 3 1 9 MatchResult.H 1 0 2 1 1 1 50 50 1 1,
   mkExM 4 4 1 9 MatchResult.H 1 0 2 1 1 1 50 50 1 1,
   mkExM 5 5 1 9 MatchResult.H 1 0 2 1 1 1 50 50 1 1,
   mkExM 6 6 1 9 MatchResult.H 1 0 2 1 1 1 50 50 1 1,
   mkExM 7 25 1 9 MatchResult.H 1 0 2 1 1 1 50 50 1 1]

/-- The same seven matches as database rows. -/
def exC6db : List Pred.DBMatch := exC6df.map Pred.dbOfMatch

/-- The most recent in-window match of `exC6df`. -/
def exC6m : Batch.Match := mkExM 6 6 1 9 MatchResult.H 1 0 2 1 1 1 50 50 1 1

instance instMatchDateLeTotal : IsTotal Batch.Match (fun a b => a.date ≤ b.date) :=
  ⟨fun a b => Int.le_total a.date b.date⟩

instance instMatchDateLeTrans : IsTrans Batch.Match (fun a b => a.date ≤ b.date) :=
  ⟨fun _ _ _ hab hbc => le_trans hab hbc⟩

instance instDBDateGeTotal : IsTotal Pred.DBMatch (fun a b => b.date ≤ a.date) :=
  ⟨fun a b => Int.le_total b.date a.date⟩

instance instDBDateGeTrans : IsTrans Pred.DBMatch (fun a b => b.date ≤ a.date) :=
  ⟨fun _ _ _ hab hbc => le_trans hbc hab⟩

/-- Membership in the team filter implies membership in the source
collection, for every venue filter. -/
theorem mem_teamMatches {df : List Batch.Match} {team_id : Nat} {as_home : Option Bool}
    {m : Batch.Match} (h : m ∈ Batch.teamMatches df team_id as_home) : m ∈ df := by
  unfold Batch.teamMatches at h
  cases as_home with
  | none => exact (List.mem_filter.mp h).1
  | some b => cases b <;> exact (List.mem_filter.mp h).1

/-- A win from the team's perspective rules out a draw. -/
theorem isWinFor_not_draw (m : Batch.Match) (team_id : Nat)
    (h : Batch.isWinFor m team_id = true) : Batch.isDrawFor m = false := by
  unfold Batch.isWinFor at h
  unfold Batch.isDrawFor
  by_cases hh : m.home_team_id = team_id
  · rw [if_pos hh] at h
    have := of_decide_eq_true h
    simp [this]
  · rw [if_neg hh] at h
    have := of_decide_eq_true h
    simp [this]

/-- The win/draw/loss classification of `calculate_team_form` is a
partition: the three counters sum to the number of matches. -/
theorem count_win_draw_loss (team_id : Nat) (l : List Batch.Match) :
    l.countP (fun m => Batch.isWinFor m team_id) + l.countP (fun m => Batch.isDrawFor m)
      + l.countP (fun m => Batch.isLossFor m team_id) = l.length := by
  induction l with
  | nil => rfl
  | cons m t ih =>
    simp only [List.countP_cons, List.length_cons]
    cases hw : Batch.isWinFor m team_id
    · cases hd : Batch.isDrawFor m
      · have hl : Batch.isLossFor m team_id = true := by
          simp [Batch.isLossFor, hw, hd]
        simp only [hw, hd, hl]
        simp
        omega
      · have hl : Batch.isLossFor m team_id = false := by
          simp [Batch.isLossFor, hd]
        simp only [hw, hd, hl]
        simp
        omega
    · have hd : Batch.isDrawFor m = false := isWinFor_not_draw m team_id hw
      have hl : Batch.isLossFor m team_id = false := by
        simp [Batch.isLossFor, hw]
      simp only [hw, hd, hl]
      simp
      omega

/-- The clamp `max(0, x)` of the inference defensive efficiency is
never negative. -/
theorem pymax_zero_le (b : Rat) : 0 ≤ Pred.pymax 0 b := by
  unfold Pred.pymax
  split
  · exact le_refl (0 : Rat)
  · next hx => exact le_of_not_le hx

/-- The `or 0` coercion is the identity on present values. -/
theorem pyOr_some_zero (v : Rat) : Pred.pyOr (some v) 0 = v := by
  unfold Pred.pyOr
  by_cases h : v = 0 <;> simp [h]

/-- On fully populated rows both paths read the same shots. -/
theorem dbShotsFor_dbOfMatch (m : Batch.Match) (team_id : Nat) :
    Pred.dbShotsFor (Pred.dbOfMatch m) team_id = Batch.shotsForOf m team_id := by
  unfold Pred.dbShotsFor Pred.dbOfMatch Batch.shotsForOf
  dsimp only
  split <;> exact pyOr_some_zero _

/-- On fully populated rows both paths read the same shots on target. -/
theorem dbSotFor_dbOfMatch (m : Batch.Match) (team_id : Nat) :
    Pred.dbSotFor (Pred.dbOfMatch m) team_id = Batch.sotForOf m team_id := by
  unfold Pred.dbSotFor Pred.dbOfMatch Batch.sotForOf
  dsimp only
  split <;> exact pyOr_some_zero _

/-- Both paths classify wins identically on fully populated rows. -/
theorem dbIsWin_dbOfMatch (m : Batch.Match) (team_id : Nat) :
    Pred.dbIsWin (Pred.dbOfMatch m) team_id = Batch.isWinFor m team_id := by
  unfold Pred.dbIsWin Pred.dbOfMatch Batch.isWinFor
  dsimp only
  split <;> simp

/-- Both paths classify draws identically on fully populated rows. -/
theorem dbIsDraw_dbOfMatch (m : Batch.Match) :
    Pred.dbIsDraw (Pred.dbOfMatch m) = Batch.isDrawFor m := by
  unfold Pred.dbIsDraw Pred.dbOfMatch Batch.isDrawFor
  simp

/-- Claim C3 (confirmed): the batch/training feature columns (the
per-fixture dict keys minus the metadata columns dropped by
`train_model.prepare_data`) and the live-inference `expected_cols` are
the same 36 names in the same fixed order, starting with
home_win_pct_l5, home_avg_goals_for_l5, home_avg_goals_against_l5 and
ending with home_recent_points, away_recent_points. -/
theorem C3_schema :
    Batch.feature_cols = Pred.expected_cols ∧
    Pred.expected_cols.length = 36 ∧
    Pred.expected_cols.take 3 =
      ["home_win_pct_l5", "home_avg_goals_for_l5", "home_avg_goals_against_l5"] ∧
    Pred.expected_cols.drop 34 = ["home_recent_points", "away_recent_points"] :=
  ⟨rfl, rfl, rfl, rfl⟩

/-- Claim C8, counterexample: with `pd.cut(bins=[0,50,60,100])` a
maximum class probability of exactly 0.50 is labelled Low (the claim
says Medium) and exactly 0.60 is labelled Medium (the claim says
High). -/
theorem C8_cex :
    Pred.confidenceOf (1/2) (3/10) (1/5) = some Pred.Confidence.Low ∧
    Pred.confidenceOf (3/5) (1/5) (1/5) = some Pred.Confidence.Medium := by
  constructor <;> decide

/-- Claim C8 (corrected): for probabilities whose maximum lies in
(0, 1], the bucket is High iff max(p) > 0.60, Medium iff
0.50 < max(p) <= 0.60, and Low iff max(p) <= 0.50 — the `pd.cut`
intervals are left-open and right-closed, so the boundary values fall
into the lower bucket. -/
theorem C8_buckets (pH pD pA : Rat) (h0 : 0 < Pred.pymax pH (Pred.pymax pD pA))
    (h1 : Pred.pymax pH (Pred.pymax pD pA) ≤ 1) :
    (Pred.confidenceOf pH pD pA = some Pred.Confidence.High ↔
      3/5 < Pred.pymax pH (Pred.pymax pD pA)) ∧
    (Pred.confidenceOf pH pD pA = some Pred.Confidence.Medium ↔
      1/2 < Pred.pymax pH (Pred.pymax pD pA) ∧ Pred.pymax pH (Pred.pymax pD pA) ≤ 3/5) ∧
    (Pred.confidenceOf pH pD pA = some Pred.Confidence.Low ↔
      Pred.pymax pH (Pred.pymax pD pA) ≤ 1/2) := by
  set m := Pred.pymax pH (Pred.pymax pD pA) with hm
  unfold Pred.confidenceOf Pred.pdCutConfidence
  rw [← hm]
  split_ifs with hA hB hC
  · exact ⟨iff_of_false (by simp) (by linarith [hA.2]),
           iff_of_false (by simp) (by rintro ⟨a, _⟩; linarith [hA.2]),
           iff_of_true rfl (by linarith [hA.2])⟩
  · exact ⟨iff_of_false (by simp) (by linarith [hB.2]),
           iff_of_true rfl ⟨by linarith [hB.1], by linarith [hB.2]⟩,
           iff_of_false (by simp) (by intro h; linarith [hB.1])⟩
  · exact ⟨iff_of_true rfl (by linarith [hC.1]),
           iff_of_false (by simp) (by rintro ⟨_, b⟩; linarith [hC.1]),
           iff_of_false (by simp) (by intro h; linarith [hC.1])⟩
  · push_neg at hA hB hC
    exfalso
    have hx : 0 < m * 100 := by linarith
    linarith [hA hx, hB (hA hx), hC (hB (hA hx))]

/-- Claim C8, witness: the bucket characterization applied to
probabilities (0.61, 0.2, 0.2). -/
theorem C8_buckets_witness :
    (0 < Pred.pymax (61/100 : Rat) (Pred.pymax (1/5) (1/5)) ∧
      Pred.pymax (61/100 : Rat) (Pred.pymax (1/5) (1/5)) ≤ 1) ∧
    (Pred.confidenceOf (61/100) (1/5) (1/5) = some Pred.Confidence.High ↔
      3/5 < Pred.pymax (61/100 : Rat) (Pred.pymax (1/5) (1/5))) :=
  ⟨⟨by decide, by decide⟩, (C8_buckets (61/100) (1/5) (1/5) (by decide) (by decide)).1⟩

/-- Claim C7, counterexample: on the live-inference path the emitted
home_advantage is the constant 1.0 even though the home team's
home-venue win fraction (0, falling back to its overall 0) minus the
away team's away-venue win fraction (0) is 0, not 1. -/
theorem C7_cex :
    (Pred.predRowFor exC7 100 exFxC7).map Pred.PredRow.home_advantage = some 1 ∧
    (Pred.calculate_team_features exC7 1 true 100 5).map Pred.PredFeatures.win_pct_venue_l5 = some 0 ∧
    (Pred.calculate_team_features exC7 2 false 100 5).map Pred.PredFeatures.win_pct_venue_l5 = some 0 ∧
    (1 : Rat) ≠ 0 - 0 := by
  refine ⟨by decide, by decide, by decide, by decide⟩

/-- Claim C7 (corrected): the batch/training assembler computes
home_advantage as the home team's home-venue win fraction minus the
away team's away-venue win fraction, but the live-inference assembler
hardcodes home_advantage = 1.0 for every fixture. -/
theorem C7_home_advantage :
    (∀ (fx : Batch.Match) (hf hfh af afa : Batch.TeamForm),
      (Batch.mkRow fx hf hfh af afa).home_advantage = hfh.win_pct - afa.win_pct) ∧
    (∀ hf af : Pred.PredFeatures, (Pred.mkPredRow hf af).home_advantage = 1) :=
  ⟨fun _ _ _ _ _ => rfl, fun _ _ => rfl⟩

/-- Claim C10 (confirmed): on the batch path a fixture with fewer than
10 dataset matches dated strictly before it — regardless of the teams
involved — produces no feature row. -/
theorem C10_global_history_gate (fixtures_df : List Batch.Match) (fx : Batch.Match)
    (h : (fixtures_df.filter (fun m => decide (m.date < fx.date))).length < 10) :
    Batch.featureRowFor (Batch.sortByDate fixtures_df) fx = none := by
  have hp : ((Batch.sortByDate fixtures_df).filter (fun m => decide (m.date < fx.date))).length
      = (fixtures_df.filter (fun m => decide (m.date < fx.date))).length :=
    ((List.perm_insertionSort _ fixtures_df).filter _).length_eq
  unfold Batch.featureRowFor
  rw [if_pos (by rw [hp]; exact h)]

/-- Claim C10, witness: a three-match dataset yields no feature row for
a later fixture. -/
theorem C10_global_history_gate_witness :
    ((exC1.filter (fun m => decide (m.date < exFxC5all.date))).length < 10) ∧
    Batch.featureRowFor (Batch.sortByDate exC1) exFxC5all = none :=
  ⟨by decide, C10_global_history_gate exC1 exFxC5all (by decide)⟩

/-- Claim C1, counterexample: on the batch path a team with only 3
qualifying matches and lookback 5 still gets a computed snapshot (over
those 3 matches) instead of Absent. -/
theorem C1_cex :
    (Batch.calculate_team_form exC1 1 5 none).isSome = true ∧
    (Batch.calculate_team_form exC1 1 5 none).map Batch.TeamForm.games_played = some 3 ∧
    (Batch.teamMatches exC1 1 none).length = 3 := by
  refine ⟨by decide, by decide, by decide⟩

/-- Claim C1 (corrected): the inference path returns Absent whenever
fewer than `lookback` qualifying matches exist, but the batch path
returns Absent exactly when zero qualifying matches exist — with 1 to
lookback-1 matches it computes a snapshot over the short history. -/
theorem C1_absent_policy :
    (∀ (db : List Pred.DBMatch) (team_id : Nat) (is_home : Bool) (today : Int) (lookback : Nat),
      (Pred.overallMatches db team_id today lookback).length < lookback →
      Pred.calculate_team_features db team_id is_home today lookback = none) ∧
    (∀ (df : List Batch.Match) (team_id n_games : Nat) (as_home : Option Bool), 0 < n_games →
      (Batch.calculate_team_form df team_id n_games as_home = none ↔
        Batch.teamMatches df team_id as_home = [])) := by
  constructor
  · intro db team_id is_home today lookback h
    unfold Pred.calculate_team_features
    rw [if_pos h]
  · intro df team_id n_games as_home hn
    have hnone : Batch.calculate_team_form df team_id n_games as_home = none ↔
        (Batch.recentMatches df team_id n_games as_home).length = 0 := by
      by_cases hc : (Batch.recentMatches df team_id n_games as_home).length = 0
      · unfold Batch.calculate_team_form
        rw [if_pos hc]
        simp [hc]
      · unfold Batch.calculate_team_form
        rw [if_neg hc]
        simp [hc]
    rw [hnone]
    unfold Batch.recentMatches Batch.sortByDate
    rw [List.length_drop, List.length_insertionSort]
    constructor
    · intro h
      have : (Batch.teamMatches df team_id as_home).length = 0 := by omega
      exact List.length_eq_zero.mp this
    · intro h
      rw [h]
      simp

/-- Claim C1, witness: an empty database and an empty dataframe
instantiate both halves of the Absent policy. -/
theorem C1_absent_policy_witness :
    ((Pred.overallMatches [] 1 0 5).length < 5 ∧
      Pred.calculate_team_features [] 1 true 0 5 = none) ∧
    (0 < 5 ∧
      (Batch.calculate_team_form [] 1 5 none = none ↔ Batch.teamMatches [] 1 none = [])) :=
  ⟨⟨by decide, C1_absent_policy.1 [] 1 true 0 5 (by decide)⟩,
   ⟨by decide, C1_absent_policy.2 [] 1 5 none (by decide)⟩⟩

/-- Claim C4, counterexample: a batch snapshot computed from only 3
matches (2 wins, 1 loss) has winFraction 2/3 = wins/games_played, not
2/5 = wins/lookback, and wins+draws+losses is 3, not the lookback 5. -/
theorem C4_cex :
    (Batch.calculate_team_form exC4 1 5 none).map Batch.TeamForm.wins = some 2 ∧
    (Batch.calculate_team_form exC4 1 5 none).map Batch.TeamForm.win_pct = some (2/3) ∧
    (2 : Rat)/3 ≠ 2/5 ∧
    (Batch.calculate_team_form exC4 1 5 none).map
      (fun s => s.wins + s.draws + s.losses) = some 3 := by
  refine ⟨by decide, by decide, by decide, by decide⟩

/-- Claim C4 (corrected): every computed batch snapshot satisfies
winFraction = wins/games_played (which equals wins/lookback exactly
when at least lookback qualifying matches exist, and then
games_played = lookback), winFraction in [0,1],
points = 3*wins + draws, and wins+draws+losses = games_played; on the
inference path winFraction = wins/lookback lies in [0,1]. -/
theorem C4_snapshot_invariants :
    (∀ (df : List Batch.Match) (team_id n_games : Nat) (as_home : Option Bool)
      (s : Batch.TeamForm),
      Batch.calculate_team_form df team_id n_games as_home = some s →
      s.win_pct = (s.wins : Rat) / (s.games_played : Rat) ∧
      0 ≤ s.win_pct ∧ s.win_pct ≤ 1 ∧
      s.points = 3 * s.wins + s.draws ∧
      s.wins + s.draws + s.losses = s.games_played ∧
      (n_games ≤ (Batch.teamMatches df team_id as_home).length → s.games_played = n_games)) ∧
    (∀ (db : List Pred.DBMatch) (team_id : Nat) (is_home : Bool) (today : Int)
      (lookback : Nat) (p : Pred.PredFeatures),
      Pred.calculate_team_features db team_id is_home today lookback = some p →
      0 ≤ p.win_pct_l5 ∧ p.win_pct_l5 ≤ 1) := by
  constructor
  · intro df team_id n_games as_home s h
    unfold Batch.calculate_team_form at h
    by_cases hc : (Batch.recentMatches df team_id n_games as_home).length = 0
    · rw [if_pos hc] at h; cases h
    · rw [if_neg hc] at h
      injection h with h'
      subst h'
      have hwins : (Batch.recentMatches df team_id n_games as_home).countP
          (fun m => Batch.isWinFor m team_id)
          ≤ (Batch.recentMatches df team_id n_games as_home).length :=
        List.countP_le_length _
      have hpos : 0 < ((Batch.recentMatches df team_id n_games as_home).length : Rat) := by
        have : 0 < (Batch.recentMatches df team_id n_games as_home).length :=
          Nat.pos_of_ne_zero hc
        exact_mod_cast this
      refine ⟨rfl, ?_, ?_, ?_, ?_, ?_⟩
      · exact div_nonneg (Nat.cast_nonneg _) (Nat.cast_nonneg _)
      · exact (div_le_one hpos).mpr (Nat.cast_le.mpr hwins)
      · dsimp only
        omega
      · exact count_win_draw_loss team_id _
      · intro hlen
        show (Batch.recentMatches df team_id n_games as_home).length = n_games
        unfold Batch.recentMatches Batch.sortByDate
        rw [List.length_drop, List.length_insertionSort]
        omega
  · intro db team_id is_home today lookback p h
    unfold Pred.calculate_team_features at h
    by_cases hc : (Pred.overallMatches db team_id today lookback).length < lookback
    · rw [if_pos hc] at h; cases h
    · rw [if_neg hc] at h
      injection h with h'
      subst h'
      constructor
      · exact div_nonneg (Nat.cast_nonneg _) (Nat.cast_nonneg _)
      · show ((Pred.overallMatches db team_id today lookback).countP
            (fun m => Pred.dbIsWin m team_id) : Rat) / (lookback : Rat) ≤ 1
        rcases Nat.eq_zero_or_pos lookback with h0 | h0
        · subst h0
          simp
        · have hL : 0 < (lookback : Rat) := by exact_mod_cast h0
          refine (div_le_one hL).mpr (Nat.cast_le.mpr ?_)
          calc (Pred.overallMatches db team_id today lookback).countP
                (fun m => Pred.dbIsWin m team_id)
              ≤ (Pred.overallMatches db team_id today lookback).length :=
                List.countP_le_length _
            _ ≤ lookback := by
                unfold Pred.overallMatches
                exact List.length_take_le _ _

/-- Claim C4, witness: the invariants evaluated on five straight 2-0
wins (Scenario A: winFraction 1, 15 points) on both paths. -/
theorem C4_snapshot_invariants_witness :
    (Batch.calculate_team_form exC4w 1 5 none = some exC4wForm ∧
      (exC4wForm.win_pct = (exC4wForm.wins : Rat) / (exC4wForm.games_played : Rat) ∧
        0 ≤ exC4wForm.win_pct ∧ exC4wForm.win_pct ≤ 1 ∧
        exC4wForm.points = 3 * exC4wForm.wins + exC4wForm.draws ∧
        exC4wForm.wins + exC4wForm.draws + exC4wForm.losses = exC4wForm.games_played ∧
        (5 ≤ (Batch.teamMatches exC4w 1 none).length → exC4wForm.games_played = 5))) ∧
    (Pred.calculate_team_features (exC4w.map Pred.dbOfMatch) 1 true 100 5 = some exC4wPred ∧
      (0 ≤ exC4wPred.win_pct_l5 ∧ exC4wPred.win_pct_l5 ≤ 1)) :=
  ⟨⟨by decide, C4_snapshot_invariants.1 exC4w 1 5 none exC4wForm (by decide)⟩,
   ⟨by decide, C4_snapshot_invariants.2 (exC4w.map Pred.dbOfMatch) 1 true 100 5 exC4wPred (by decide)⟩⟩

/-- Claim C5, counterexample: on the inference path a fixture whose
home team has zero home-venue matches (and whose away team has zero
away-venue matches) is still assembled — the venue snapshot that the
claim says must be Absent is replaced by fallback values. -/
theorem C5_cex :
    (Pred.venueMatches exC5 1 true 100 5).length = 0 ∧
    (Pred.venueMatches exC5 2 false 100 5).length = 0 ∧
    (Pred.predRowFor exC5 100 exFxC5).isSome = true := by
  refine ⟨by decide, by decide, by decide⟩

/-- Claim C5 (corrected): on the batch path a produced feature row
implies all four snapshots were present (so any Absent snapshot skips
the fixture); on the inference path a fixture is skipped exactly when
one of the two overall feature computations is Absent — venue
insufficiency never skips. -/
theorem C5_absent_propagation :
    (∀ (all : List Batch.Match) (fx : Batch.Match) (r : Batch.FeatureRow),
      Batch.featureRowFor all fx = some r →
      (Batch.calculate_team_form (all.filter (fun m => decide (m.date < fx.date)))
        fx.home_team_id 5 none).isSome = true ∧
      (Batch.calculate_team_form (all.filter (fun m => decide (m.date < fx.date)))
        fx.home_team_id 5 (some true)).isSome = true ∧
      (Batch.calculate_team_form (all.filter (fun m => decide (m.date < fx.date)))
        fx.away_team_id 5 none).isSome = true ∧
      (Batch.calculate_team_form (all.filter (fun m => decide (m.date < fx.date)))
        fx.away_team_id 5 (some false)).isSome = true) ∧
    (∀ (db : List Pred.DBMatch) (today : Int) (fx : Pred.Upcoming),
      Pred.predRowFor db today fx = none ↔
        Pred.calculate_team_features db fx.home_team_id true today 5 = none ∨
        Pred.calculate_team_features db fx.away_team_id false today 5 = none) := by
  constructor
  · intro all fx r h
    unfold Batch.featureRowFor at h
    by_cases h10 : (all.filter (fun m => decide (m.date < fx.date))).length < 10
    · rw [if_pos h10] at h; cases h
    · rw [if_neg h10] at h
      cases h1 : Batch.calculate_team_form (all.filter (fun m => decide (m.date < fx.date)))
          fx.home_team_id 5 none with
      | none => rw [h1] at h; simp at h
      | some f1 =>
        cases h2 : Batch.calculate_team_form (all.filter (fun m => decide (m.date < fx.date)))
            fx.home_team_id 5 (some true) with
        | none => rw [h1, h2] at h; simp at h
        | some f2 =>
          cases h3 : Batch.calculate_team_form (all.filter (fun m => decide (m.date < fx.date)))
              fx.away_team_id 5 none with
          | none => rw [h1, h2, h3] at h; simp at h
          | some f3 =>
            cases h4 : Batch.calculate_team_form (all.filter (fun m => decide (m.date < fx.date)))
                fx.away_team_id 5 (some false) with
            | none => rw [h1, h2, h3, h4] at h; simp at h
            | some f4 => exact ⟨rfl, rfl, rfl, rfl⟩
  · intro db today fx
    unfold Pred.predRowFor
    cases h1 : Pred.calculate_team_features db fx.home_team_id true today 5 with
    | none => simp [h1]
    | some f1 =>
      cases h2 : Pred.calculate_team_features db fx.away_team_id false today 5 with
      | none => simp [h1, h2]
      | some f2 => simp [h1, h2]

/-- Claim C5, witness: a ten-match dataset that produces a feature row
(hence all four snapshots present), and the inference skip condition
evaluated on the venue-free database. -/
theorem C5_absent_propagation_witness :
    ((Batch.featureRowFor exC5all exFxC5all).isSome = true ∧
      ((Batch.calculate_team_form (exC5all.filter (fun m => decide (m.date < exFxC5all.date)))
          exFxC5all.home_team_id 5 none).isSome = true ∧
        (Batch.calculate_team_form (exC5all.filter (fun m => decide (m.date < exFxC5all.date)))
          exFxC5all.home_team_id 5 (some true)).isSome = true ∧
        (Batch.calculate_team_form (exC5all.filter (fun m => decide (m.date < exFxC5all.date)))
          exFxC5all.away_team_id 5 none).isSome = true ∧
        (Batch.calculate_team_form (exC5all.filter (fun m => decide (m.date < exFxC5all.date)))
          exFxC5all.away_team_id 5 (some false)).isSome = true)) ∧
    (Pred.predRowFor exC5 100 exFxC5 = none ↔
      Pred.calculate_team_features exC5 exFxC5.home_team_id true 100 5 = none ∨
      Pred.calculate_team_features exC5 exFxC5.away_team_id false 100 5 = none) :=
  ⟨⟨by decide,
    C5_absent_propagation.1 exC5all exFxC5all
      ((Batch.featureRowFor exC5all exFxC5all).get (by decide))
      (Option.some_get (by decide)).symm⟩,
   C5_absent_propagation.2 exC5 100 exFxC5⟩

/-- Claim C9, counterexample: on the inference path, when the shots
against the team are all 0 its defensive efficiency evaluates to 100,
not 0 — the inference formula is goals-based with a never-zero
denominator, unlike the batch goals-against/shots-against ratio. -/
theorem C9_cex :
    exC9.all (fun m => m.away_shots = some 0) = true ∧
    (Pred.calculate_team_features exC9 1 true 100 5).map
      Pred.PredFeatures.defensive_efficiency = some 100 ∧
    (100 : Rat) ≠ 0 := by
  refine ⟨by decide, by decide, by decide⟩

/-- Claim C9 (corrected): every zero-denominator guard holds as
claimed except inference defensive efficiency: batch shot accuracy,
conversion rate and defensive efficiency are 0 when their sums of
shots, shots-on-target and shots-against are 0; the assembler's
possession efficiency and corner effectiveness are 0 when the average
possession or corners are 0 (both paths); inference shot accuracy and
conversion rate are 0 when total shots is 0; inference defensive
efficiency is merely clamped to be non-negative. -/
theorem C9_zero_guards :
    (∀ (df : List Batch.Match) (team_id n_games : Nat) (as_home : Option Bool)
      (s : Batch.TeamForm),
      Batch.calculate_team_form df team_id n_games as_home = some s →
      (((Batch.recentMatches df team_id n_games as_home).map
          (fun m => Batch.shotsForOf m team_id)).sum = 0 → s.shot_accuracy = 0) ∧
      (((Batch.recentMatches df team_id n_games as_home).map
          (fun m => Batch.sotForOf m team_id)).sum = 0 → s.conversion_rate = 0) ∧
      (((Batch.recentMatches df team_id n_games as_home).map
          (fun m => Batch.shotsAgainstOf m team_id)).sum = 0 → s.defensive_efficiency = 0)) ∧
    (∀ (fx : Batch.Match) (hf hfh af afa : Batch.TeamForm),
      (hf.avg_possession = 0 → (Batch.mkRow fx hf hfh af afa).home_poss_efficiency = 0) ∧
      (af.avg_possession = 0 → (Batch.mkRow fx hf hfh af afa).away_poss_efficiency = 0) ∧
      (hf.avg_corners_for = 0 → (Batch.mkRow fx hf hfh af afa).home_corner_effectiveness = 0) ∧
      (af.avg_corners_for = 0 → (Batch.mkRow fx hf hfh af afa).away_corner_effectiveness = 0)) ∧
    (∀ (db : List Pred.DBMatch) (team_id : Nat) (is_home : Bool) (today : Int)
      (lookback : Nat) (p : Pred.PredFeatures),
      Pred.calculate_team_features db team_id is_home today lookback = some p →
      (((Pred.overallMatches db team_id today lookback).map
          (fun m => Pred.dbShotsFor m team_id)).sum = 0 →
        p.shot_accuracy = 0 ∧ p.conversion_rate = 0) ∧
      (Batch.mean ((Pred.overallMatches db team_id today lookback).map
          (fun m => Pred.dbPossession m team_id)) = 0 → p.poss_efficiency = 0) ∧
      (((Pred.overallMatches db team_id today lookback).map
          (fun m => Pred.dbCorners m team_id)).sum = 0 → p.corner_effectiveness = 0) ∧
      0 ≤ p.defensive_efficiency) := by
  refine ⟨?_, ?_, ?_⟩
  · intro df team_id n_games as_home s h
    unfold Batch.calculate_team_form at h
    by_cases hc : (Batch.recentMatches df team_id n_games as_home).length = 0
    · rw [if_pos hc] at h; cases h
    · rw [if_neg hc] at h
      injection h with h'
      subst h'
      refine ⟨?_, ?_, ?_⟩ <;> (intro h0; dsimp only; simp [h0])
  · intro fx hf hfh af afa
    unfold Batch.mkRow
    refine ⟨?_, ?_, ?_, ?_⟩ <;> (intro h0; dsimp only; simp [h0])
  · intro db team_id is_home today lookback p h
    unfold Pred.calculate_team_features at h
    by_cases hc : (Pred.overallMatches db team_id today lookback).length < lookback
    · rw [if_pos hc] at h; cases h
    · rw [if_neg hc] at h
      injection h with h'
      subst h'
      refine ⟨?_, ?_, ?_, ?_⟩
      · intro h0; dsimp only; rw [h0]; simp
      · intro h0; dsimp only; simp [h0]
      · intro h0; dsimp only; simp [h0]
      · exact pymax_zero_le _

/-- Claim C9, witness: the guards evaluated on all-zero statistics
(and a zero-average possession database) on both paths. -/
theorem C9_zero_guards_witness :
    ((Batch.calculate_team_form exC9b 1 5 none).get (by decide)).shot_accuracy = 0 ∧
    ((Batch.calculate_team_form exC9b 1 5 none).get (by decide)).conversion_rate = 0 ∧
    ((Batch.calculate_team_form exC9b 1 5 none).get (by decide)).defensive_efficiency = 0 ∧
    (Batch.mkRow exC9fx ((Batch.calculate_team_form exC9b 1 5 none).get (by decide))
      ((Batch.calculate_team_form exC9b 1 5 none).get (by decide))
      ((Batch.calculate_team_form exC9b 1 5 none).get (by decide))
      ((Batch.calculate_team_form exC9b 1 5 none).get (by decide))).home_poss_efficiency = 0 ∧
    (Batch.mkRow exC9fx ((Batch.calculate_team_form exC9b 1 5 none).get (by decide))
      ((Batch.calculate_team_form exC9b 1 5 none).get (by decide))
      ((Batch.calculate_team_form exC9b 1 5 none).get (by decide))
      ((Batch.calculate_team_form exC9b 1 5 none).get (by decide))).home_corner_effectiveness = 0 ∧
    (((Pred.calculate_team_features exC9 1 true 100 5).get (by decide)).shot_accuracy = 0 ∧
      ((Pred.calculate_team_features exC9 1 true 100 5).get (by decide)).conversion_rate = 0) ∧
    ((Pred.calculate_team_features exC9p 1 true 100 5).get (by decide)).poss_efficiency = 0 ∧
    ((Pred.calculate_team_features exC9 1 true 100 5).get (by decide)).corner_effectiveness = 0 ∧
    0 ≤ ((Pred.calculate_team_features exC9 1 true 100 5).get (by decide)).defensive_efficiency :=
  ⟨(C9_zero_guards.1 exC9b 1 5 none _ (Option.some_get (by decide)).symm).1 (by decide),
   (C9_zero_guards.1 exC9b 1 5 none _ (Option.some_get (by decide)).symm).2.1 (by decide),
   (C9_zero_guards.1 exC9b 1 5 none _ (Option.some_get (by decide)).symm).2.2 (by decide),
   (C9_zero_guards.2.1 exC9fx _ _ _ _).1 (by decide),
   (C9_zero_guards.2.1 exC9fx _ _ _ _).2.2.1 (by decide),
   (C9_zero_guards.2.2 exC9 1 true 100 5 _ (Option.some_get (by decide)).symm).1 (by decide),
   (C9_zero_guards.2.2 exC9p 1 true 100 5 _ (Option.some_get (by decide)).symm).2.1 (by decide),
   (C9_zero_guards.2.2 exC9 1 true 100 5 _ (Option.some_get (by decide)).symm).2.2.1 (by decide),
   (C9_zero_guards.2.2 exC9 1 true 100 5 _ (Option.some_get (by decide)).symm).2.2.2⟩

/-- Claim C6 (confirmed): on the batch path every selected match is
dated strictly before the cutoff; whenever at least `n_games`
qualifying matches exist the selection has exactly `n_games` entries;
the selection is the trailing segment of the date-sorted qualifying
list and every unselected qualifying match is dated no later than
every selected one. On the inference path every selected match is
dated strictly before today, the selection has exactly `lookback`
entries whenever enough qualify, and every unselected qualifying match
is dated no later than every selected one. -/
theorem C6_window_selection (df : List Batch.Match) (cutoff : Int) (team_id n_games : Nat)
    (as_home : Option Bool) (db : List Pred.DBMatch) (today : Int) (lookback : Nat) :
    (∀ m ∈ Batch.recentMatches (df.filter (fun m => decide (m.date < cutoff)))
        team_id n_games as_home, m.date < cutoff) ∧
    (n_games ≤ (Batch.teamMatches (df.filter (fun m => decide (m.date < cutoff)))
        team_id as_home).length →
      (Batch.recentMatches (df.filter (fun m => decide (m.date < cutoff)))
        team_id n_games as_home).length = n_games) ∧
    (Batch.recentMatches (df.filter (fun m => decide (m.date < cutoff))) team_id n_games as_home
      <:+ Batch.sortByDate (Batch.teamMatches (df.filter (fun m => decide (m.date < cutoff)))
            team_id as_home)) ∧
    (∀ a ∈ (Batch.sortByDate (Batch.teamMatches (df.filter (fun m => decide (m.date < cutoff)))
          team_id as_home)).take
        ((Batch.sortByDate (Batch.teamMatches (df.filter (fun m => decide (m.date < cutoff)))
          team_id as_home)).length - n_games),
      ∀ b ∈ Batch.recentMatches (df.filter (fun m => decide (m.date < cutoff)))
          team_id n_games as_home,
      a.date ≤ b.date) ∧
    (∀ m ∈ Pred.overallMatches db team_id today lookback, m.date < today) ∧
    (lookback ≤ (db.filter (fun m =>
        (decide (m.home_team_id = team_id) || decide (m.away_team_id = team_id))
        && m.result.isSome && decide (m.date < today))).length →
      (Pred.overallMatches db team_id today lookback).length = lookback) ∧
    (∀ a ∈ Pred.overallMatches db team_id today lookback,
      ∀ b ∈ ((db.filter (fun m =>
          (decide (m.home_team_id = team_id) || decide (m.away_team_id = team_id))
          && m.result.isSome && decide (m.date < today))).insertionSort
          (fun a b => b.date ≤ a.date)).drop lookback,
      b.date ≤ a.date) := by
  refine ⟨?_, ?_, ?_, ?_, ?_, ?_, ?_⟩
  · intro m hm
    have h1 : m ∈ Batch.sortByDate (Batch.teamMatches
        (df.filter (fun m => decide (m.date < cutoff))) team_id as_home) :=
      List.mem_of_mem_drop hm
    have h2 : m ∈ Batch.teamMatches (df.filter (fun m => decide (m.date < cutoff)))
        team_id as_home := by
      unfold Batch.sortByDate at h1
      exact (List.mem_insertionSort _).mp h1
    have h3 : m ∈ df.filter (fun m => decide (m.date < cutoff)) := mem_teamMatches h2
    exact of_decide_eq_true (List.mem_filter.mp h3).2
  · intro hlen
    unfold Batch.recentMatches Batch.sortByDate
    rw [List.length_drop, List.length_insertionSort]
    omega
  · unfold Batch.recentMatches
    exact List.drop_suffix _ _
  · intro a ha b hb
    have hsorted : List.Sorted (fun x y : Batch.Match => x.date ≤ y.date)
        (Batch.sortByDate (Batch.teamMatches
          (df.filter (fun m => decide (m.date < cutoff))) team_id as_home)) := by
      unfold Batch.sortByDate
      exact List.sorted_insertionSort _ _
    set l := Batch.sortByDate (Batch.teamMatches
      (df.filter (fun m => decide (m.date < cutoff))) team_id as_home) with hl
    have hsplit := List.take_append_drop (l.length - n_games) l
    have hpw := List.pairwise_append.mp (by rw [hsplit]; exact hsorted)
    have hb' : b ∈ l.drop (l.length - n_games) := by
      unfold Batch.recentMatches at hb
      rw [← hl] at hb
      exact hb
    exact hpw.2.2 a ha b hb'
  · intro m hm
    have h1 : m ∈ (db.filter (fun m =>
        (decide (m.home_team_id = team_id) || decide (m.away_team_id = team_id))
        && m.result.isSome && decide (m.date < today))).insertionSort
        (fun a b => b.date ≤ a.date) := by
      unfold Pred.overallMatches at hm
      exact List.mem_of_mem_take hm
    have h2 := (List.mem_insertionSort _).mp h1
    have h3 := (List.mem_filter.mp h2).2
    simp only [Bool.and_eq_true, decide_eq_true_eq] at h3
    exact h3.2
  · intro hlen
    unfold Pred.overallMatches
    rw [List.length_take, List.length_insertionSort]
    omega
  · intro a ha b hb
    have hsorted : List.Sorted (fun x y : Pred.DBMatch => y.date ≤ x.date)
        ((db.filter (fun m =>
          (decide (m.home_team_id = team_id) || decide (m.away_team_id = team_id))
          && m.result.isSome && decide (m.date < today))).insertionSort
          (fun a b => b.date ≤ a.date)) :=
      List.sorted_insertionSort _ _
    set l := (db.filter (fun m =>
      (decide (m.home_team_id = team_id) || decide (m.away_team_id = team_id))
      && m.result.isSome && decide (m.date < today))).insertionSort
      (fun a b => b.date ≤ a.date) with hl
    have hsplit := List.take_append_drop lookback l
    have hpw := List.pairwise_append.mp (by rw [hsplit]; exact hsorted)
    have ha' : a ∈ l.take lookback := by
      unfold Pred.overallMatches at ha
      rw [← hl] at ha
      exact ha
    exact hpw.2.2 a ha' b hb

/-- Claim C6, witness: with six in-window matches and one after the
cutoff, both paths select exactly five matches, and the date-6 match
(a selected one) is strictly before the cutoff 20. -/
theorem C6_window_selection_witness :
    (Batch.recentMatches (exC6df.filter (fun m => decide (m.date < 20))) 1 5 none).length = 5 ∧
    (Pred.overallMatches exC6db 1 20 5).length = 5 ∧
    exC6m.date < 20 :=
  ⟨(C6_window_selection exC6df 20 1 5 none exC6db 20 5).2.1 (by decide),
   (C6_window_selection exC6df 20 1 5 none exC6db 20 5).2.2.2.2.2.1 (by decide),
   (C6_window_selection exC6df 20 1 5 none exC6db 20 5).1 exC6m (by decide)⟩

/-- Claim C2, counterexample: on the same five matches (1 goal, 4
shots, 2 on target each) the batch conversion rate is
goals/shots-on-target*100 = 50 while the inference conversion rate is
goals/shots*100 = 25, and the batch defensive efficiency
(goals-against/shots-against) is 0 while the inference one (a
goals-based percentage) is 100. -/
theorem C2_cex :
    (Batch.calculate_team_form exC2 1 5 none).map Batch.TeamForm.conversion_rate = some 50 ∧
    (Pred.calculate_team_features (exC2.map Pred.dbOfMatch) 1 true 100 5).map
      Pred.PredFeatures.conversion_rate = some 25 ∧
    (Batch.calculate_team_form exC2 1 5 none).map Batch.TeamForm.defensive_efficiency = some 0 ∧
    (Pred.calculate_team_features (exC2.map Pred.dbOfMatch) 1 true 100 5).map
      Pred.PredFeatures.defensive_efficiency = some 100 ∧
    (50 : Rat) ≠ 25 ∧ (0 : Rat) ≠ 100 := by
  refine ⟨by decide, by decide, by decide, by decide, by decide, by decide⟩

/-- Claim C2 (corrected): given the same input matches (all involving
the team, dated before the cutoff, exactly lookback of them) the two
paths agree on shot accuracy, win fraction and points — but not on
conversion rate and defensive efficiency, whose formulas diverge
(goals/shots-on-target*100 vs goals/shots*100, and a
goals-against-per-shot ratio vs a clamped goals-based percentage). -/
theorem C2_shared_metric_agreement (ms : List Batch.Match) (team_id : Nat) (is_home : Bool)
    (today : Int) (L : Nat) (hL : 0 < L) (hlen : ms.length = L)
    (hteam : ∀ m ∈ ms, m.home_team_id = team_id ∨ m.away_team_id = team_id)
    (hdate : ∀ m ∈ ms, m.date < today) :
    (Batch.calculate_team_form ms team_id L none).isSome = true ∧
    (Pred.calculate_team_features (ms.map Pred.dbOfMatch) team_id is_home today L).isSome = true ∧
    (Batch.calculate_team_form ms team_id L none).map Batch.TeamForm.shot_accuracy
      = (Pred.calculate_team_features (ms.map Pred.dbOfMatch) team_id is_home today L).map
          Pred.PredFeatures.shot_accuracy ∧
    (Batch.calculate_team_form ms team_id L none).map Batch.TeamForm.win_pct
      = (Pred.calculate_team_features (ms.map Pred.dbOfMatch) team_id is_home today L).map
          Pred.PredFeatures.win_pct_l5 ∧
    (Batch.calculate_team_form ms team_id L none).map Batch.TeamForm.points
      = (Pred.calculate_team_features (ms.map Pred.dbOfMatch) team_id is_home today L).map
          Pred.PredFeatures.recent_points := by
  -- batch-side selection facts
  have hfilter : Batch.teamMatches ms team_id none = ms := by
    unfold Batch.teamMatches
    apply List.filter_eq_self.mpr
    intro a ha
    rcases hteam a ha with h | h <;> simp [h]
  have hperm1 : (Batch.sortByDate ms).Perm ms := by
    unfold Batch.sortByDate
    exact List.perm_insertionSort _ _
  have hlen1 : (Batch.sortByDate ms).length = L := hperm1.length_eq.trans hlen
  have hrecent : Batch.recentMatches ms team_id L none = Batch.sortByDate ms := by
    unfold Batch.recentMatches
    rw [hfilter]
    dsimp only
    rw [hlen1, Nat.sub_self]
    simp
  have hne : ¬((Batch.sortByDate ms).length = 0) := by omega
  -- inference-side selection facts
  have hfilter2 : (ms.map Pred.dbOfMatch).filter (fun m =>
      (decide (m.home_team_id = team_id) || decide (m.away_team_id = team_id))
      && m.result.isSome && decide (m.date < today)) = ms.map Pred.dbOfMatch := by
    apply List.filter_eq_self.mpr
    intro a ha
    rcases List.mem_map.mp ha with ⟨m, hm, rfl⟩
    have hd : m.date < today := hdate m hm
    rcases hteam m hm with h | h <;>
      simp [Pred.dbOfMatch, h, hd]
  have hperm2 : ((ms.map Pred.dbOfMatch).insertionSort
      (fun a b => b.date ≤ a.date)).Perm (ms.map Pred.dbOfMatch) :=
    List.perm_insertionSort _ _
  have hlen2 : ((ms.map Pred.dbOfMatch).insertionSort
      (fun a b => b.date ≤ a.date)).length = L :=
    hperm2.length_eq.trans ((List.length_map _ _).trans hlen)
  have hoverall : Pred.overallMatches (ms.map Pred.dbOfMatch) team_id today L
      = (ms.map Pred.dbOfMatch).insertionSort (fun a b => b.date ≤ a.date) := by
    unfold Pred.overallMatches
    rw [hfilter2]
    exact List.take_of_length_le (le_of_eq hlen2)
  have hnl : ¬(((ms.map Pred.dbOfMatch).insertionSort
      (fun a b => b.date ≤ a.date)).length < L) := by omega
  -- aggregate equalities
  have hshots : (((ms.map Pred.dbOfMatch).insertionSort (fun a b => b.date ≤ a.date)).map
      (fun m => Pred.dbShotsFor m team_id)).sum
      = ((Batch.sortByDate ms).map (fun m => Batch.shotsForOf m team_id)).sum := by
    rw [(hperm2.map (fun m => Pred.dbShotsFor m team_id)).sum_eq, List.map_map,
        (hperm1.map (fun m => Batch.shotsForOf m team_id)).sum_eq]
    simp only [Function.comp_def, dbShotsFor_dbOfMatch]
  have hsot : (((ms.map Pred.dbOfMatch).insertionSort (fun a b => b.date ≤ a.date)).map
      (fun m => Pred.dbSotFor m team_id)).sum
      = ((Batch.sortByDate ms).map (fun m => Batch.sotForOf m team_id)).sum := by
    rw [(hperm2.map (fun m => Pred.dbSotFor m team_id)).sum_eq, List.map_map,
        (hperm1.map (fun m => Batch.sotForOf m team_id)).sum_eq]
    simp only [Function.comp_def, dbSotFor_dbOfMatch]
  have hwins : List.countP (fun m => Pred.dbIsWin m team_id)
      ((ms.map Pred.dbOfMatch).insertionSort (fun a b => b.date ≤ a.date))
      = List.countP (fun m => Batch.isWinFor m team_id) (Batch.sortByDate ms) := by
    rw [hperm2.countP_eq, List.countP_map, hperm1.countP_eq]
    simp only [Function.comp_def, dbIsWin_dbOfMatch]
  have hdraws : List.countP (fun m => Pred.dbIsDraw m)
      ((ms.map Pred.dbOfMatch).insertionSort (fun a b => b.date ≤ a.date))
      = List.countP (fun m => Batch.isDrawFor m) (Batch.sortByDate ms) := by
    rw [hperm2.countP_eq, List.countP_map, hperm1.countP_eq]
    simp only [Function.comp_def, dbIsDraw_dbOfMatch]
  refine ⟨?_, ?_, ?_, ?_, ?_⟩
  · unfold Batch.calculate_team_form
    rw [hrecent, if_neg hne]
    rfl
  · unfold Pred.calculate_team_features
    rw [hoverall, if_neg hnl]
    rfl
  · unfold Batch.calculate_team_form Pred.calculate_team_features
    rw [hrecent, hoverall, if_neg hne, if_neg hnl]
    simp only [Option.map_some', Option.some.injEq]
    rw [hshots, hsot]
  · unfold Batch.calculate_team_form Pred.calculate_team_features
    rw [hrecent, hoverall, if_neg hne, if_neg hnl]
    simp only [Option.map_some', Option.some.injEq]
    rw [hwins, hlen1]
  · unfold Batch.calculate_team_form Pred.calculate_team_features
    rw [hrecent, hoverall, if_neg hne, if_neg hnl]
    simp only [Option.map_some', Option.some.injEq]
    rw [hwins, hdraws]
    omega

/-- Claim C2, witness: the agreement evaluated on the five identical
1-0 home wins of `exC2` (shot accuracy 50 on both paths). -/
theorem C2_shared_metric_agreement_witness :
    (Batch.calculate_team_form exC2 1 5 none).isSome = true ∧
    (Pred.calculate_team_features (exC2.map Pred.dbOfMatch) 1 true 100 5).isSome = true ∧
    (Batch.calculate_team_form exC2 1 5 none).map Batch.TeamForm.shot_accuracy
      = (Pred.calculate_team_features (exC2.map Pred.dbOfMatch) 1 true 100 5).map
          Pred.PredFeatures.shot_accuracy ∧
    (Batch.calculate_team_form exC2 1 5 none).map Batch.TeamForm.win_pct
      = (Pred.calculate_team_features (exC2.map Pred.dbOfMatch) 1 true 100 5).map
          Pred.PredFeatures.win_pct_l5 ∧
    (Batch.calculate_team_form exC2 1 5 none).map Batch.TeamForm.points
      = (Pred.calculate_team_features (exC2.map Pred.dbOfMatch) 1 true 100 5).map
          Pred.PredFeatures.recent_points :=
  C2_shared_metric_agreement exC2 1 true 100 5 (by decide) (by decide) (by decide) (by decide)
